import Mathlib

/-!
Verification development for the claude-code-quiz-app repository.

The quiz-attempt state machine lives in `src/app.py` (Flask session
dictionaries) with persistence via `src/models.py`; the account-security
state machine lives in
`src/production-quiz-app/app/models/user.py` and
`src/production-quiz-app/app/services/auth_service.py`, with the
`Attempt.complete` scoring finalizer in
`src/production-quiz-app/app/models/attempt.py`.

Time is modelled as `Nat` seconds.  Python `datetime` arithmetic on these
code paths only ever compares timestamps and adds fixed offsets, so a
discrete clock is a faithful shallow embedding.  Percentages are modelled
as `ℚ`; the float expressions in the code (`score / total * 100`,
`round(x, 2)`) involve no float-specific behaviour at the inputs these
claims are about, and exactness differences between the two code paths
survive the rational model unchanged.
-/

namespace QuizApp

/-- A question as stored in the Flask session: the dictionary produced by
`Question.to_dict` in `src/models.py` (keys `id`, `question`, `options`,
`correct`, `explanation`, `difficulty`; note: no `category`/`topic` key). -/
structure QuizQuestion where
  id : Nat
  question : String
  options : List String
  correct : Nat
  explanation : String
  difficulty : String
deriving DecidableEq, Repr

/-- The dictionary appended to `session['answers']` by `submit_answer` in
`src/app.py` (lines 124-137).  `selected` is an `Int` because
`int(request.form.get('answer', -1))` accepts any integer and defaults
to `-1`. -/
structure AnswerRecord where
  id : Nat
  question : String
  category : String
  difficulty : String
  selected : Int
  correct : Nat
  is_correct : Bool
  explanation : String
  options : List String
deriving DecidableEq, Repr

/-- The per-attempt quiz state kept in the Flask session by `src/app.py`:
keys `questions`, `current_index`, `score`, `answers`. -/
structure QuizSession where
  questions : List QuizQuestion
  current_index : Nat
  score : Nat
  answers : List AnswerRecord
deriving DecidableEq, Repr

/-- The persisted `Attempt` row (`src/models.py`, class `Attempt`):
`completed_at`, `score`, `total_questions`, `percentage` are all nullable
and only filled in on completion. -/
structure AttemptRow where
  started_at : Nat
  completed_at : Option Nat
  score : Option Nat
  total_questions : Option Nat
  percentage : Option ℚ
deriving DecidableEq, Repr

/-- Uncaught Python exceptions a route can raise in the embedded code. -/
inductive PyError where
  | indexError
deriving DecidableEq, Repr

/-- Outcome of the `/start` route (`start_quiz`, `src/app.py` lines 39-82):
either a redirect back to the dashboard (missing quiz or no questions) or a
freshly initialized session plus the newly created `Attempt` row. -/
inductive StartResult where
  | redirectDashboard
  | started (st : QuizSession) (att : AttemptRow)
deriving DecidableEq, Repr

/-- Whether `/start` created an `Attempt` row. -/
def StartResult.attemptCreated : StartResult → Bool
  | .redirectDashboard => false
  | .started _ _ => true

/-- `start_quiz` from `src/app.py` (lines 39-82), specialized to a found
quiz whose question list (post-shuffle) is `questions`: if the list is
empty the route redirects to the dashboard before creating anything;
otherwise it inserts an `Attempt` row with only `started_at` set and
initializes the session with `current_index = 0`, `score = 0`,
`answers = []`.  The shuffle is a permutation chosen upstream of this
function, so we take the already-ordered list as input. -/
def start_quiz (now : Nat) (questions : List QuizQuestion) : StartResult :=
  if questions.isEmpty then
    .redirectDashboard
  else
    .started
      { questions := questions, current_index := 0, score := 0, answers := [] }
      { started_at := now, completed_at := none, score := none,
        total_questions := none, percentage := none }

/-- `submit_answer` from `src/app.py` (lines 106-142).  The route reads
`questions[current_index]` with no bounds check: when `current_index`
is past the end, Python raises an uncaught `IndexError` (modelled as
`.error .indexError`) before any session mutation.  Otherwise it compares
the submitted integer to the question's `correct` index with no range
validation, bumps the score on a match, appends the answer dictionary
(the `category` lookup falls through `category`/`topic` to `'General'`
because `to_dict` provides neither key) and increments
`current_index`. -/
def submit_answer (st : QuizSession) (selected : Int) :
    Except PyError QuizSession :=
  match st.questions.get? st.current_index with
  | none => .error .indexError
  | some q =>
      let is_correct : Bool := selected == (q.correct : Int)
      let score' := if is_correct then st.score + 1 else st.score
      let entry : AnswerRecord :=
        { id := q.id, question := q.question, category := "General",
          difficulty := q.difficulty, selected := selected,
          correct := q.correct, is_correct := is_correct,
          explanation := q.explanation, options := q.options }
      .ok { st with
              score := score',
              answers := st.answers ++ [entry],
              current_index := st.current_index + 1 }

/-- Submitting a list of answers in order, short-circuiting on an
uncaught exception. -/
def submitList (st : QuizSession) : List Int → Except PyError QuizSession
  | [] => .ok st
  | a :: rest =>
      match submit_answer st a with
      | .error e => .error e
      | .ok st' => submitList st' rest

/-- The database-save portion of the `/results` route (`src/app.py`
lines 144-181), for a found attempt row: sets `completed_at` to now and
stores `score`, `total_questions` and the UNROUNDED percentage
`score / total * 100` (0 when total is 0).  Rounding to one decimal
happens only in the rendered template, not in the stored row. -/
def results (now : Nat) (st : QuizSession) (att : AttemptRow) : AttemptRow :=
  let score := st.score
  let total := st.questions.length
  let percentage : ℚ := if total > 0 then (score : ℚ) / (total : ℚ) * 100 else 0
  { att with
      completed_at := some now,
      score := some score,
      total_questions := some total,
      percentage := some percentage }

/-- Count of recorded answers whose selected option equals the question's
correct index at submission time. -/
def matchCount (answers : List AnswerRecord) : Nat :=
  (answers.filter (fun r => r.selected == (r.correct : Int))).length

/-- Round-half-even to the nearest rational with denominator dividing 100:
Python's `round(x, 2)` on these code paths (banker's rounding).  The inputs
at issue here are never half-way ties, so the tie rule is inert, but we
model it faithfully. -/
def round2 (x : ℚ) : ℚ :=
  let y := x * 100
  let f : ℤ := ⌊y⌋
  let r : ℚ := y - (f : ℚ)
  let n : ℤ :=
    if r < 1/2 then f
    else if r > 1/2 then f + 1
    else if Even f then f else f + 1
  (n : ℚ) / 100

/-- `Attempt.complete` from
`src/production-quiz-app/app/models/attempt.py` (lines 72-88): sets the
completion timestamp, stores score and total, stores
`round((score / total_questions) * 100, 2)` (0 when total is 0), and
records `time_taken = completed_at - started_at` in whole seconds. -/
def Attempt.complete (now : Nat) (score total_questions : Nat)
    (att : AttemptRow) : AttemptRow :=
  { att with
      completed_at := some now,
      score := some score,
      total_questions := some total_questions,
      percentage :=
        some (if total_questions > 0 then
                round2 ((score : ℚ) / (total_questions : ℚ) * 100)
              else 0) }

end QuizApp

namespace AuthApp

/-- Account lock duration from `User.record_failed_login`
(`src/production-quiz-app/app/models/user.py`): 15 minutes, in seconds. -/
def lockDuration : Nat := 15 * 60

/-- The security-relevant columns of the production `User` model
(`src/production-quiz-app/app/models/user.py`).  `password_hash` is
nullable for accounts migrated from the old schema; the `Option`'s `some`
case carries the stored hash string (Python truthiness also treats an
empty stored hash as absent, which `check_password` mirrors). -/
structure User where
  password_hash : Option String
  is_active : Bool
  email_verified : Bool
  verification_token : Option String
  password_reset_token : Option String
  reset_token_expires : Option Nat
  failed_login_attempts : Nat
  account_locked_until : Option Nat
  last_active : Nat
deriving DecidableEq, Repr

/-- The external werkzeug `generate_password_hash` collaborator, modelled
as an injective encoding of the plaintext; `check_password_hash` below
accepts exactly the hash produced from the same plaintext, which is the
only property of the real primitive the embedded control flow relies on. -/
def generate_password_hash (password : String) : String :=
  "pbkdf2-sha256$" ++ password

/-- The external werkzeug `check_password_hash` collaborator. -/
def check_password_hash (hash password : String) : Bool :=
  hash == generate_password_hash password

/-- `User.check_password` (`user.py` lines 86-98): a missing (or falsy,
i.e. empty) stored hash short-circuits to `False`; otherwise defers to
`check_password_hash`. -/
def check_password (u : User) (password : String) : Bool :=
  match u.password_hash with
  | none => false
  | some h => if h.isEmpty then false else check_password_hash h password

/-- `User.record_failed_login` (`user.py` lines 158-167): increment the
counter; whenever the (new) counter is ≥ 5, set
`account_locked_until = now + 15 minutes`.  Note the lock is (re)set on
EVERY call at or past the threshold, not only on the crossing call. -/
def record_failed_login (now : Nat) (u : User) : User :=
  let u := { u with failed_login_attempts := u.failed_login_attempts + 1 }
  if u.failed_login_attempts ≥ 5 then
    { u with account_locked_until := some (now + lockDuration) }
  else u

/-- `User.reset_failed_logins` (`user.py` lines 169-172). -/
def reset_failed_logins (u : User) : User :=
  { u with failed_login_attempts := 0, account_locked_until := none }

/-- `User.is_account_locked` (`user.py` lines 174-190): no lock set →
false; lock strictly in the past (`utcnow() > locked_until`) → clear both
the lock and the failed counter and return false; otherwise (now at or
before the deadline) → true.  Returns the possibly-mutated user alongside
the boolean. -/
def is_account_locked (now : Nat) (u : User) : Bool × User :=
  match u.account_locked_until with
  | none => (false, u)
  | some t =>
      if now > t then
        (false, { u with account_locked_until := none,
                         failed_login_attempts := 0 })
      else (true, u)

/-- `User.update_last_active` (`user.py` lines 192-194). -/
def update_last_active (now : Nat) (u : User) : User :=
  { u with last_active := now }

/-- The caller-visible outcomes of `AuthService.authenticate_user`
(`src/production-quiz-app/app/services/auth_service.py` lines 68-118),
identified by their distinct error messages. -/
inductive AuthOutcome where
  | success
  | invalidCredentials
  | accountLocked
  | accountInactive
deriving DecidableEq, Repr

/-- `AuthService.authenticate_user` (`auth_service.py` lines 68-118),
specialized past the username-or-email lookup: `found` is the looked-up
user (`none` when no row matched).  Check order: lookup, lock, active
flag, password; a password mismatch records a failed login; success
resets the counter and touches `last_active`.  Returns the outcome and
the user's post-call state (`none` when no user was found). -/
def authenticate_user (now : Nat) (found : Option User) (password : String) :
    AuthOutcome × Option User :=
  match found with
  | none => (.invalidCredentials, none)
  | some user =>
      let lockCheck := is_account_locked now user
      let user := lockCheck.2
      if lockCheck.1 then (.accountLocked, some user)
      else if !user.is_active then (.accountInactive, some user)
      else if !check_password user password then
        (.invalidCredentials, some (record_failed_login now user))
      else
        (.success, some (update_last_active now (reset_failed_logins user)))

/-- `RecordFailedLogin` iterated over a list of call times, in order. -/
def recordFailures (times : List Nat) (u : User) : User :=
  times.foldl (fun u t => record_failed_login t u) u

/-- Decidable form of "the lock-until timestamp is set and lies strictly
in the future of `now`". -/
def lockInFuture (now : Nat) (u : User) : Bool :=
  match u.account_locked_until with
  | none => false
  | some t => now < t

end AuthApp

namespace QuizApp

lemma submit_answer_eq_ok {st : QuizSession} {q : QuizQuestion} (s : Int)
    (hq : st.questions.get? st.current_index = some q) :
    submit_answer st s = .ok
      { st with
          score := if s == (q.correct : Int) then st.score + 1 else st.score,
          answers := st.answers ++
            [{ id := q.id, question := q.question, category := "General",
               difficulty := q.difficulty, selected := s, correct := q.correct,
               is_correct := s == (q.correct : Int),
               explanation := q.explanation, options := q.options }],
          current_index := st.current_index + 1 } := by
  unfold submit_answer
  rw [hq]

lemma submit_answer_eq_error {st : QuizSession} (s : Int)
    (hq : st.questions.get? st.current_index = none) :
    submit_answer st s = .error .indexError := by
  unfold submit_answer
  rw [hq]

lemma matchCount_append (xs : List AnswerRecord) (r : AnswerRecord) :
    matchCount (xs ++ [r]) =
      matchCount xs + (if r.selected == (r.correct : Int) then 1 else 0) := by
  by_cases h : r.selected == (r.correct : Int)
  · simp [matchCount, List.filter_append, h]
  · simp [matchCount, List.filter_append, h]

lemma submit_answer_ok {st st' : QuizSession} {s : Int}
    (h : submit_answer st s = .ok st') :
    st'.questions = st.questions ∧
    st'.current_index = st.current_index + 1 ∧
    st'.answers.length = st.answers.length + 1 ∧
    st'.score + matchCount st.answers = st.score + matchCount st'.answers ∧
    st.current_index < st.questions.length := by
  cases hq : st.questions.get? st.current_index with
  | none =>
      rw [submit_answer_eq_error s hq] at h
      exact absurd h (by simp)
  | some q =>
      rw [submit_answer_eq_ok s hq] at h
      injection h with h
      subst h
      refine ⟨rfl, rfl, by simp, ?_, ?_⟩
      · rw [matchCount_append]
        by_cases hc : s == (q.correct : Int)
        · simp [hc]
          omega
        · simp [hc]
      · exact List.get?_eq_some.mp hq |>.choose

lemma submitList_ok {ans : List Int} :
    ∀ {st st' : QuizSession}, submitList st ans = .ok st' →
      st'.questions = st.questions ∧
      st'.current_index = st.current_index + ans.length ∧
      st'.answers.length = st.answers.length + ans.length ∧
      st'.score + matchCount st.answers = st.score + matchCount st'.answers := by
  induction ans with
  | nil =>
      intro st st' h
      simp [submitList] at h
      subst h
      simp
  | cons a rest ih =>
      intro st st' h
      unfold submitList at h
      cases hs : submit_answer st a with
      | error e => rw [hs] at h; exact absurd h (by simp)
      | ok st1 =>
          rw [hs] at h
          obtain ⟨hq, hi, hl, hscore⟩ := ih h
          obtain ⟨hq1, hi1, hl1, hscore1, _⟩ := submit_answer_ok hs
          refine ⟨hq.trans hq1, ?_, ?_, ?_⟩
          · rw [hi, hi1]; simp; omega
          · rw [hl, hl1]; simp; omega
          · omega

/-- The 5-question scenario bank with correct indices `[1,2,2,2,1]`. -/
def scenarioQuestions : List QuizQuestion :=
  [ { id := 1, question := "Q1", options := ["a", "b", "c", "d"],
      correct := 1, explanation := "E1", difficulty := "easy" },
    { id := 2, question := "Q2", options := ["a", "b", "c", "d"],
      correct := 2, explanation := "E2", difficulty := "easy" },
    { id := 3, question := "Q3", options := ["a", "b", "c", "d"],
      correct := 2, explanation := "E3", difficulty := "medium" },
    { id := 4, question := "Q4", options := ["a", "b", "c", "d"],
      correct := 2, explanation := "E4", difficulty := "medium" },
    { id := 5, question := "Q5", options := ["a", "b", "c", "d"],
      correct := 1, explanation := "E5", difficulty := "hard" } ]

/-- The scenario submission sequence `[1,0,2,2,1]`. -/
def scenarioAnswers : List Int := [1, 0, 2, 2, 1]

/-- Freshly initialized session for the scenario bank. -/
def scenarioStart : QuizSession :=
  { questions := scenarioQuestions, current_index := 0, score := 0,
    answers := [] }

/-- The `Attempt` row as `start_quiz` inserts it at time 0. -/
def freshAttempt : AttemptRow :=
  { started_at := 0, completed_at := none, score := none,
    total_questions := none, percentage := none }

/-- The session after submitting the five scenario answers. -/
def scenarioFinal : QuizSession :=
  ((submitList scenarioStart scenarioAnswers).toOption).getD scenarioStart

/-- C1: for every completed attempt (all questions submitted), the final
score equals the count of recorded answers whose selected option index
equals the question's correct index; the position equals the question
count, and the results step sets the completion timestamp and stores
`score / total * 100`.  Instantiated at the `[1,2,2,2,1]` /
`[1,0,2,2,1]` scenario in the witness (score 4, percentage 80,
position 5). -/
theorem completed_attempt_score_correct
    (snow rnow : Nat) (qs : List QuizQuestion) (ans : List Int)
    (st0 stF : QuizSession) (att0 : AttemptRow)
    (hstart : start_quiz snow qs = .started st0 att0)
    (hrun : submitList st0 ans = .ok stF)
    (hlen : ans.length = qs.length) :
    stF.score = matchCount stF.answers ∧
    stF.current_index = qs.length ∧
    (results rnow stF att0).completed_at = some rnow ∧
    (results rnow stF att0).percentage =
      some (if 0 < qs.length then
              (stF.score : ℚ) / (qs.length : ℚ) * 100
            else 0) := by
  unfold start_quiz at hstart
  split at hstart
  · exact absurd hstart (by simp)
  · injection hstart with h1 h2
    subst h1
    obtain ⟨hq, hi, _, hscore⟩ := submitList_ok hrun
    simp only at hq hi hscore
    have hsc : stF.score = matchCount stF.answers := by
      simpa [matchCount] using hscore
    refine ⟨hsc, by omega, rfl, ?_⟩
    simp only [results, hq, hlen]

/-- C1 witness: the spec scenario, end to end. -/
theorem completed_attempt_score_correct_witness :
    start_quiz 0 scenarioQuestions = .started scenarioStart freshAttempt ∧
    submitList scenarioStart scenarioAnswers = .ok scenarioFinal ∧
    scenarioAnswers.length = scenarioQuestions.length ∧
    (scenarioFinal.score = matchCount scenarioFinal.answers ∧
     scenarioFinal.current_index = scenarioQuestions.length ∧
     (results 7 scenarioFinal freshAttempt).completed_at = some 7 ∧
     (results 7 scenarioFinal freshAttempt).percentage =
       some (if 0 < scenarioQuestions.length then
               (scenarioFinal.score : ℚ) / (scenarioQuestions.length : ℚ) * 100
             else 0)) ∧
    scenarioFinal.score = 4 ∧
    (results 7 scenarioFinal freshAttempt).percentage = some 80 ∧
    scenarioFinal.current_index = 5 := by
  refine ⟨rfl, rfl, rfl,
    completed_attempt_score_correct 0 7 scenarioQuestions scenarioAnswers
      scenarioStart scenarioFinal freshAttempt rfl rfl rfl,
    by decide, ?_, by decide⟩
  have hs : scenarioFinal.score = 4 := by decide
  have hl : scenarioFinal.questions.length = 5 := by decide
  simp only [results, hs, hl]
  norm_num

/-- A one-question bank used to exercise the completed-attempt paths. -/
def oneQuestion : QuizQuestion :=
  { id := 1, question := "Q", options := ["a", "b", "c", "d"],
    correct := 0, explanation := "E", difficulty := "easy" }

/-- Fresh session on the one-question bank. -/
def oneQStart : QuizSession :=
  { questions := [oneQuestion], current_index := 0, score := 0, answers := [] }

/-- The one-question session after its single (and final) submission —
a completed attempt: `current_index = 1 = len(questions)`. -/
def oneQFinal : QuizSession :=
  ((submit_answer oneQStart 0).toOption).getD oneQStart

/-- C2 (code bug): `submit_answer` in `src/app.py` reads
`questions[current_index]` with no state check, so invoking it on a
completed attempt (`current_index == len(questions)`) raises an uncaught
Python `IndexError` (an HTTP 500) instead of the `InvalidStateError` the
spec requires; the exception fires before any mutation, so the state is
indeed left unchanged, but the call crashes rather than failing
cleanly. -/
theorem submit_after_completion_raises :
    oneQFinal.current_index = oneQFinal.questions.length ∧
    submit_answer oneQFinal 2 = .error .indexError :=
  ⟨rfl, rfl⟩

/-- C3 counterexample: immediately after the final `SubmitAnswer` the
position equals the question count, yet the attempt row's completion
timestamp is still unset — `submit_answer` never touches the `Attempt`
row; only the separate `/results` step sets `completed_at`.  So the
claimed "timestamp present iff position == len(questions)" fails in the
right-to-left direction. -/
theorem final_submit_leaves_timestamp_unset :
    start_quiz 0 [oneQuestion] = .started oneQStart freshAttempt ∧
    submit_answer oneQStart 0 = .ok oneQFinal ∧
    oneQFinal.current_index = oneQFinal.questions.length ∧
    freshAttempt.completed_at = none :=
  ⟨rfl, rfl, rfl, rfl⟩

/-- C3 (amended): after every successful `SubmitAnswer`,
`len(answers) == current position` is preserved and
`current position ≤ len(questions)` holds; the completion-timestamp
biconditional is dropped because `submit_answer` does not set the
timestamp (see the counterexample). -/
theorem submit_preserves_position_invariants
    (st st' : QuizSession) (s : Int)
    (hinv : st.answers.length = st.current_index)
    (h : submit_answer st s = .ok st') :
    st'.answers.length = st'.current_index ∧
    st'.current_index ≤ st'.questions.length := by
  obtain ⟨hq, hi, hl, _, hlt⟩ := submit_answer_ok h
  constructor
  · omega
  · rw [hq, hi]
    omega

/-- C3 witness: the invariant theorem applied to the one-question run. -/
theorem submit_preserves_position_invariants_witness :
    oneQStart.answers.length = oneQStart.current_index ∧
    oneQFinal.answers.length = oneQFinal.current_index ∧
    oneQFinal.current_index ≤ oneQFinal.questions.length :=
  ⟨rfl, submit_preserves_position_invariants oneQStart oneQFinal 0 rfl rfl⟩

/-- A three-question bank (all correct answers at index 0) for the
rounding counterexample: submitting `[0,1,1]` scores 1 of 3. -/
def thirdQuestions : List QuizQuestion :=
  [ { id := 1, question := "Q1", options := ["a", "b", "c", "d"],
      correct := 0, explanation := "E1", difficulty := "easy" },
    { id := 2, question := "Q2", options := ["a", "b", "c", "d"],
      correct := 0, explanation := "E2", difficulty := "easy" },
    { id := 3, question := "Q3", options := ["a", "b", "c", "d"],
      correct := 0, explanation := "E3", difficulty := "easy" } ]

/-- Fresh session on the three-question bank. -/
def thirdStart : QuizSession :=
  { questions := thirdQuestions, current_index := 0, score := 0,
    answers := [] }

/-- The three-question session after submitting `[0,1,1]` (score 1/3). -/
def thirdFinal : QuizSession :=
  ((submitList thirdStart [0, 1, 1]).toOption).getD thirdStart

/-- C4 counterexample: the `/results` route of `src/app.py` stores the
UNROUNDED percentage `score / total * 100`.  For score 1 of 3 it stores
`100/3 = 33.333...`, while `round(100 * score / total, 2)` is `33.33`;
the two differ, so "the stored percentage equals
round(100 * score / total, 2)" fails for attempts completed through this
route (it holds on the `Attempt.complete` path of the production app). -/
theorem results_stores_unrounded_percentage :
    thirdFinal.score = 1 ∧
    thirdFinal.questions.length = 3 ∧
    (results 9 thirdFinal freshAttempt).percentage = some ((100 : ℚ) / 3) ∧
    round2 (100 * (1 : ℚ) / 3) = 3333 / 100 ∧
    ((100 : ℚ) / 3) ≠ 3333 / 100 := by
  refine ⟨by decide, by decide, ?_, ?_, by norm_num⟩
  · have hs : thirdFinal.score = 1 := by decide
    have hl : thirdFinal.questions.length = 3 := by decide
    simp only [results, hs, hl]
    norm_num
  · unfold round2
    norm_num

/-- C4 (amended): the production `Attempt.complete` stores exactly the
spec formula `round(100 * score / total, 2)` when `total > 0` and `0`
when `total = 0`; the prototype `/results` route instead stores the
unrounded value (see the counterexample). -/
theorem complete_percentage_spec
    (now score total : Nat) (att : AttemptRow) :
    (Attempt.complete now score total att).percentage =
      some (if 0 < total then round2 ((100 * (score : ℚ)) / (total : ℚ))
            else 0) := by
  unfold Attempt.complete
  by_cases h : 0 < total
  · simp only [h, if_true, gt_iff_lt]
    congr 2
    ring
  · simp only [h, if_false, gt_iff_lt]

/-- C5 counterexample: starting with an empty question bank neither
raises an `EmptyQuizError` (no such error exists in the code) nor
creates an attempt — the route silently redirects to the dashboard. -/
theorem start_empty_bank_redirects :
    start_quiz 0 [] = .redirectDashboard ∧
    (start_quiz 0 []).attemptCreated = false :=
  ⟨rfl, rfl⟩

/-- C5 (amended): for every empty question bank, `start_quiz` creates no
attempt and redirects to the dashboard (rather than failing with
`EmptyQuizError`). -/
theorem start_empty_no_attempt (now : Nat) (qs : List QuizQuestion)
    (h : qs.isEmpty = true) :
    start_quiz now qs = .redirectDashboard ∧
    (start_quiz now qs).attemptCreated = false := by
  unfold start_quiz
  simp [h, StartResult.attemptCreated]

/-- C5 witness: the amended theorem at the empty bank. -/
theorem start_empty_no_attempt_witness :
    ([] : List QuizQuestion).isEmpty = true ∧
    (start_quiz 3 [] = .redirectDashboard ∧
     (start_quiz 3 []).attemptCreated = false) :=
  ⟨rfl, start_empty_no_attempt 3 [] rfl⟩

/-- The one-question session after submitting the out-of-range index 7. -/
def outOfRangeFinal : QuizSession :=
  ((submit_answer oneQStart 7).toOption).getD oneQStart

/-- C6 counterexample: submitting the out-of-range index 7 on an
in-progress attempt succeeds — no `InvalidAnswerError` exists in
`src/app.py` — and the answer IS recorded (as incorrect), contradicting
"fails ... and no answer is recorded for that call". -/
theorem submit_out_of_range_recorded :
    submit_answer oneQStart 7 = .ok outOfRangeFinal ∧
    outOfRangeFinal.answers.length = 1 ∧
    outOfRangeFinal.answers.map (fun r => (r.selected, r.is_correct)) =
      [(7, false)] :=
  ⟨rfl, rfl, rfl⟩

/-- C6 (amended): `submit_answer` performs no range validation at all:
for every in-progress attempt and every integer `s` (in-range, sentinel,
or out-of-range alike) the call succeeds and appends a record with that
selected value, marked correct exactly when it equals the current
question's correct index.  Out-of-range values are only rejected later by
the `user_answers` CHECK constraint at the database layer. -/
theorem submit_accepts_any_integer
    (st : QuizSession) (q : QuizQuestion) (s : Int)
    (hq : st.questions.get? st.current_index = some q) :
    ∃ st', submit_answer st s = .ok st' ∧
      st'.answers.length = st.answers.length + 1 ∧
      st'.answers.getLast?.map (fun r => (r.selected, r.is_correct)) =
        some (s, s == (q.correct : Int)) := by
  refine ⟨_, submit_answer_eq_ok s hq, by simp, ?_⟩
  simp

/-- C6 witness: the no-validation theorem at the out-of-range index 7. -/
theorem submit_accepts_any_integer_witness :
    oneQStart.questions.get? oneQStart.current_index = some oneQuestion ∧
    (∃ st', submit_answer oneQStart 7 = .ok st' ∧
      st'.answers.length = oneQStart.answers.length + 1 ∧
      st'.answers.getLast?.map (fun r => (r.selected, r.is_correct)) =
        some (7, (7 : Int) == (oneQuestion.correct : Int))) :=
  ⟨rfl, submit_accepts_any_integer oneQStart oneQuestion 7 rfl⟩

end QuizApp

namespace AuthApp

lemma record_failed_login_below (now : Nat) (u : User)
    (h : u.failed_login_attempts + 1 < 5) :
    record_failed_login now u =
      { u with failed_login_attempts := u.failed_login_attempts + 1 } := by
  unfold record_failed_login
  dsimp only
  rw [if_neg (by omega)]

lemma record_failed_login_at (now : Nat) (u : User)
    (h : 5 ≤ u.failed_login_attempts + 1) :
    record_failed_login now u =
      { u with failed_login_attempts := u.failed_login_attempts + 1,
               account_locked_until := some (now + lockDuration) } := by
  unfold record_failed_login
  dsimp only
  rw [if_pos (by omega)]

lemma is_account_locked_preserves (now : Nat) (u : User) :
    (is_account_locked now u).2.password_hash = u.password_hash ∧
    (is_account_locked now u).2.is_active = u.is_active := by
  unfold is_account_locked
  cases u.account_locked_until with
  | none => exact ⟨rfl, rfl⟩
  | some t =>
      dsimp only
      by_cases h : now > t
      · rw [if_pos h]
        exact ⟨rfl, rfl⟩
      · rw [if_neg h]
        exact ⟨rfl, rfl⟩

/-- A legacy account migrated without a password hash: counter 0, no
lock, active. -/
def legacyUser : User :=
  { password_hash := none, is_active := true, email_verified := false,
    verification_token := none, password_reset_token := none,
    reset_token_expires := none, failed_login_attempts := 0,
    account_locked_until := none, last_active := 0 }

/-- A fresh user with a real (hashed) password. -/
def freshUser : User :=
  { legacyUser with password_hash := some (generate_password_hash "hunter2") }

/-- A user whose 5th failure at time 0 locked the account until 900. -/
def lockedUser : User :=
  { legacyUser with failed_login_attempts := 5,
                    account_locked_until := some 900 }

/-- A user locked until exactly time 100. -/
def boundaryUser : User :=
  { legacyUser with failed_login_attempts := 5,
                    account_locked_until := some 100 }

/-- A user one failed attempt below the lock threshold. -/
def nearLockUser : User :=
  { legacyUser with failed_login_attempts := 4 }

/-- C7: on a fresh user (counter 0, no lock), five `record_failed_login`
calls leave the counter at 5 and the lock at (5th call time + 15 min),
so `is_account_locked` is true at any instant up to that deadline —
in particular immediately after the 5th call — and a subsequent
`authenticate_user` with the correct password short-circuits at the lock
check with the account-locked error, never reaching the password
comparison. -/
theorem lockout_after_five_failures
    (u : User) (p : String) (t1 t2 t3 t4 t5 now : Nat)
    (hfresh : u.failed_login_attempts = 0)
    (hlock : u.account_locked_until = none)
    (hnow : now ≤ t5 + lockDuration)
    (hpw : check_password u p = true) :
    (is_account_locked now (recordFailures [t1, t2, t3, t4, t5] u)).1 =
      true ∧
    (recordFailures [t1, t2, t3, t4, t5] u).failed_login_attempts = 5 ∧
    (recordFailures [t1, t2, t3, t4, t5] u).account_locked_until =
      some (t5 + lockDuration) ∧
    (authenticate_user now
      (some (recordFailures [t1, t2, t3, t4, t5] u)) p).1 = .accountLocked := by
  obtain ⟨ph, act, ev, vt, prt, rte, fla, alu, la⟩ := u
  simp only at hfresh hlock
  subst hfresh
  subst hlock
  have h5 : recordFailures [t1, t2, t3, t4, t5]
      (User.mk ph act ev vt prt rte 0 none la) =
      User.mk ph act ev vt prt rte 5 (some (t5 + lockDuration)) la := rfl
  rw [h5]
  have hlocked : (is_account_locked now
      (User.mk ph act ev vt prt rte 5 (some (t5 + lockDuration)) la)).1 =
      true := by
    unfold is_account_locked
    dsimp only
    rw [if_neg (by omega)]
  refine ⟨hlocked, rfl, rfl, ?_⟩
  unfold authenticate_user
  dsimp only
  rw [if_pos hlocked]

/-- C7 witness: the lockout theorem on a concrete fresh user with all
five failures and the re-authentication attempt at time 0. -/
theorem lockout_after_five_failures_witness :
    freshUser.failed_login_attempts = 0 ∧
    freshUser.account_locked_until = none ∧
    (0 : Nat) ≤ 0 + lockDuration ∧
    check_password freshUser "hunter2" = true ∧
    ((is_account_locked 0 (recordFailures [0, 0, 0, 0, 0] freshUser)).1 =
       true ∧
     (recordFailures [0, 0, 0, 0, 0] freshUser).failed_login_attempts = 5 ∧
     (recordFailures [0, 0, 0, 0, 0] freshUser).account_locked_until =
       some (0 + lockDuration) ∧
     (authenticate_user 0
       (some (recordFailures [0, 0, 0, 0, 0] freshUser)) "hunter2").1 =
       .accountLocked) :=
  ⟨rfl, rfl, Nat.zero_le _, by decide,
   lockout_after_five_failures freshUser "hunter2" 0 0 0 0 0 0 rfl rfl
     (Nat.zero_le _) (by decide)⟩

/-- C8 counterexample: with the lock-until timestamp equal to the
current instant (so NOT strictly in the future), `is_account_locked`
still reports true — the code clears only when `utcnow() > locked_until`
holds strictly, so the claimed "true iff lock-until is set and lies in
the future" fails at the boundary instant. -/
theorem locked_at_exact_expiry_boundary :
    (is_account_locked 100 boundaryUser).1 = true ∧
    lockInFuture 100 boundaryUser = false := by
  decide

/-- C8 (amended): `is_account_locked` returns true iff the lock-until
timestamp is set and has not yet strictly passed (`now ≤ lock-until`,
rather than strictly in the future); when the lock has expired
(`lock-until < now`) it returns false and clears both the lock-until
timestamp and the failed-login counter as a side effect. -/
theorem is_account_locked_spec (now : Nat) (u : User) :
    ((is_account_locked now u).1 = true ↔
      ∃ t, u.account_locked_until = some t ∧ now ≤ t) ∧
    (∀ t, u.account_locked_until = some t → t < now →
      is_account_locked now u =
        (false, { u with account_locked_until := none,
                         failed_login_attempts := 0 })) := by
  unfold is_account_locked
  cases halu : u.account_locked_until with
  | none =>
      constructor
      · simp
      · intro t ht
        exact absurd ht (by simp)
  | some t0 =>
      constructor
      · dsimp only
        by_cases h : now > t0
        · rw [if_pos h]
          simp
          omega
        · rw [if_neg h]
          simp
          omega
      · intro t ht hpast
        injection ht with ht
        subst ht
        dsimp only
        rw [if_pos (by omega)]

/-- C8 witness: the amended characterization applied at a live instant
(0 ≤ 100) and at an expired instant (100 < 200) of the same lock. -/
theorem is_account_locked_spec_witness :
    ((is_account_locked 0 boundaryUser).1 = true ↔
      ∃ t, boundaryUser.account_locked_until = some t ∧ 0 ≤ t) ∧
    boundaryUser.account_locked_until = some 100 ∧
    (100 : Nat) < 200 ∧
    is_account_locked 200 boundaryUser =
      (false, { boundaryUser with account_locked_until := none,
                                  failed_login_attempts := 0 }) :=
  ⟨(is_account_locked_spec 0 boundaryUser).1, rfl, by omega,
   (is_account_locked_spec 200 boundaryUser).2 100 rfl (by omega)⟩

/-- C9 counterexample: `record_failed_login` re-sets the lock on EVERY
call at or past the threshold.  A user locked until 900 who fails again
at time 60 (while still locked) gets the lock moved to 60 + 900 = 960 —
the call extends the lock, contradicting "further RecordFailedLogin
calls while the account is already locked do not extend the lock". -/
theorem record_failed_login_extends_lock_cex :
    (is_account_locked 60 lockedUser).1 = true ∧
    lockedUser.account_locked_until = some 900 ∧
    (record_failed_login 60 lockedUser).account_locked_until = some 960 := by
  decide

/-- C9 (amended): `record_failed_login` increments the counter and never
resets it; whenever the incremented counter is at or above the threshold
of 5 — including every further call while already locked — it sets
lock-until to (call time + 15 minutes), thereby extending an existing
lock; only below the threshold is the lock field left untouched. -/
theorem record_failed_login_spec (now : Nat) (u : User) :
    (record_failed_login now u).failed_login_attempts =
      u.failed_login_attempts + 1 ∧
    (4 ≤ u.failed_login_attempts →
      (record_failed_login now u).account_locked_until =
        some (now + lockDuration)) ∧
    (u.failed_login_attempts < 4 →
      (record_failed_login now u).account_locked_until =
        u.account_locked_until) := by
  unfold record_failed_login
  dsimp only
  by_cases h : u.failed_login_attempts + 1 ≥ 5
  · rw [if_pos h]
    exact ⟨rfl, fun _ => rfl, fun hc => absurd h (by omega)⟩
  · rw [if_neg h]
    exact ⟨rfl, fun hc => absurd hc (by omega), fun _ => rfl⟩

/-- C9 witness: the increment/lock behaviour at the threshold call. -/
theorem record_failed_login_spec_witness :
    (4 : Nat) ≤ nearLockUser.failed_login_attempts ∧
    (record_failed_login 7 nearLockUser).failed_login_attempts =
      nearLockUser.failed_login_attempts + 1 ∧
    (record_failed_login 7 nearLockUser).account_locked_until =
      some (7 + lockDuration) :=
  ⟨by decide, (record_failed_login_spec 7 nearLockUser).1,
   (record_failed_login_spec 7 nearLockUser).2.1 (by decide)⟩

/-- C10: a user with no stored password hash can never authenticate:
`check_password` returns false for every input, so (when the account is
not locked and is active) `authenticate_user` returns the generic
invalid-credentials result and records a failed login, incrementing the
counter on the post-lock-check user state. -/
theorem null_hash_never_authenticates
    (now : Nat) (u : User) (p : String)
    (hhash : u.password_hash = none)
    (hactive : u.is_active = true)
    (hnotlocked : (is_account_locked now u).1 = false) :
    check_password u p = false ∧
    authenticate_user now (some u) p =
      (.invalidCredentials,
       some (record_failed_login now (is_account_locked now u).2)) ∧
    (record_failed_login now (is_account_locked now u).2).failed_login_attempts
      = (is_account_locked now u).2.failed_login_attempts + 1 := by
  obtain ⟨hph, hac⟩ := is_account_locked_preserves now u
  have hcp : check_password (is_account_locked now u).2 p = false := by
    unfold check_password
    rw [hph, hhash]
  refine ⟨by unfold check_password; rw [hhash], ?_, ?_⟩
  · unfold authenticate_user
    dsimp only
    rw [if_neg (by rw [hnotlocked]; exact Bool.false_ne_true),
        if_neg (by rw [hac, hactive]; simp),
        if_pos (by rw [hcp]; rfl)]
  · unfold record_failed_login
    dsimp only
    by_cases h : (is_account_locked now u).2.failed_login_attempts + 1 ≥ 5
    · rw [if_pos h]
    · rw [if_neg h]

/-- C10 witness: the legacy (hashless) user, any password. -/
theorem null_hash_never_authenticates_witness :
    legacyUser.password_hash = none ∧
    legacyUser.is_active = true ∧
    (is_account_locked 3 legacyUser).1 = false ∧
    (check_password legacyUser "secret" = false ∧
     authenticate_user 3 (some legacyUser) "secret" =
       (.invalidCredentials,
        some (record_failed_login 3 (is_account_locked 3 legacyUser).2)) ∧
     (record_failed_login 3
        (is_account_locked 3 legacyUser).2).failed_login_attempts =
       (is_account_locked 3 legacyUser).2.failed_login_attempts + 1) :=
  ⟨rfl, rfl, rfl,
   null_hash_never_authenticates 3 legacyUser "secret" rfl rfl rfl⟩

end AuthApp
